import Mathlib

/-!
Verification of the valorantsl player-updater pipeline.

A shallow embedding of the updater core of the repository:

* `src/updater/riot_api.py` — upstream client: `_make_request` retry loop,
  `_process_mmr_data`, `_get_peak_rank_info`, `_get_seasonal_ranks_info`,
  `get_full_player_data`;
* `src/updater/src/riot_api.py` — variant client: `get_player_mmr_data`
  retry loop, `_parse_rank_details`;
* `src/updater/database.py` — `update_player_data` (Mongo `update_one`
  with `$set`, no upsert);
* `src/updater/updater.py` — `PlayerUpdater`: `_update_single_player`,
  `_update_players_batch`, `update_all_players`, `_get_update_stats`.

JSON values are modelled by the inductive `JVal`; Python dictionaries by
association lists in insertion order (Python dicts preserve insertion
order and have unique keys).  A Python expression that can raise
(`d.get` on a non-dict, iteration over a non-list) is embedded in
`Except String`, the error string naming the Python exception class.
Sleeps performed by retry loops are returned explicitly as a list of
delay values, and the number of HTTP requests issued is returned as a
counter, so that timing/attempt claims become statements about data.
-/

namespace ValorantSL

/-- JSON-like values as handled by the Python code. -/
inductive JVal where
  | str (s : String)
  | num (n : Int)
  | bool (b : Bool)
  | null
  | arr (xs : List JVal)
  | obj (fields : List (String × JVal))

mutual

/-- Boolean equality on JSON values. -/
def JVal.beq : JVal → JVal → Bool
  | .str a, .str b => a == b
  | .num a, .num b => a == b
  | .bool a, .bool b => a == b
  | .null, .null => true
  | .arr xs, .arr ys => JVal.beqArr xs ys
  | .obj fs, .obj gs => JVal.beqObj fs gs
  | _, _ => false

/-- Boolean equality on JSON arrays. -/
def JVal.beqArr : List JVal → List JVal → Bool
  | [], [] => true
  | x :: xs, y :: ys => JVal.beq x y && JVal.beqArr xs ys
  | _, _ => false

/-- Boolean equality on JSON objects. -/
def JVal.beqObj : List (String × JVal) → List (String × JVal) → Bool
  | [], [] => true
  | (k, v) :: fs, (k', v') :: gs => k == k' && JVal.beq v v' && JVal.beqObj fs gs
  | _, _ => false

end

mutual

theorem JVal.beq_refl : ∀ a : JVal, JVal.beq a a = true
  | .str a => by simp [JVal.beq]
  | .num a => by simp [JVal.beq]
  | .bool a => by simp [JVal.beq]
  | .null => by simp [JVal.beq]
  | .arr xs => by simp [JVal.beq, JVal.beqArr_refl xs]
  | .obj fs => by simp [JVal.beq, JVal.beqObj_refl fs]

theorem JVal.beqArr_refl : ∀ xs : List JVal, JVal.beqArr xs xs = true
  | [] => rfl
  | x :: xs => by simp [JVal.beqArr, JVal.beq_refl x, JVal.beqArr_refl xs]

theorem JVal.beqObj_refl : ∀ fs : List (String × JVal), JVal.beqObj fs fs = true
  | [] => rfl
  | (k, v) :: fs => by simp [JVal.beqObj, JVal.beq_refl v, JVal.beqObj_refl fs]

end

mutual

theorem JVal.eq_of_beq : ∀ a b : JVal, JVal.beq a b = true → a = b
  | .str _, .str _, h => by simpa [JVal.beq] using h
  | .num _, .num _, h => by simpa [JVal.beq] using h
  | .bool _, .bool _, h => by simpa [JVal.beq] using h
  | .null, .null, _ => rfl
  | .arr xs, .arr ys, h =>
      congrArg JVal.arr (JVal.eqArr_of_beqArr xs ys (by simpa [JVal.beq] using h))
  | .obj fs, .obj gs, h =>
      congrArg JVal.obj (JVal.eqObj_of_beqObj fs gs (by simpa [JVal.beq] using h))
  | .str _, .num _, h => by simp [JVal.beq] at h
  | .str _, .bool _, h => by simp [JVal.beq] at h
  | .str _, .null, h => by simp [JVal.beq] at h
  | .str _, .arr _, h => by simp [JVal.beq] at h
  | .str _, .obj _, h => by simp [JVal.beq] at h
  | .num _, .str _, h => by simp [JVal.beq] at h
  | .num _, .bool _, h => by simp [JVal.beq] at h
  | .num _, .null, h => by simp [JVal.beq] at h
  | .num _, .arr _, h => by simp [JVal.beq] at h
  | .num _, .obj _, h => by simp [JVal.beq] at h
  | .bool _, .str _, h => by simp [JVal.beq] at h
  | .bool _, .num _, h => by simp [JVal.beq] at h
  | .bool _, .null, h => by simp [JVal.beq] at h
  | .bool _, .arr _, h => by simp [JVal.beq] at h
  | .bool _, .obj _, h => by simp [JVal.beq] at h
  | .null, .str _, h => by simp [JVal.beq] at h
  | .null, .num _, h => by simp [JVal.beq] at h
  | .null, .bool _, h => by simp [JVal.beq] at h
  | .null, .arr _, h => by simp [JVal.beq] at h
  | .null, .obj _, h => by simp [JVal.beq] at h
  | .arr _, .str _, h => by simp [JVal.beq] at h
  | .arr _, .num _, h => by simp [JVal.beq] at h
  | .arr _, .bool _, h => by simp [JVal.beq] at h
  | .arr _, .null, h => by simp [JVal.beq] at h
  | .arr _, .obj _, h => by simp [JVal.beq] at h
  | .obj _, .str _, h => by simp [JVal.beq] at h
  | .obj _, .num _, h => by simp [JVal.beq] at h
  | .obj _, .bool _, h => by simp [JVal.beq] at h
  | .obj _, .null, h => by simp [JVal.beq] at h
  | .obj _, .arr _, h => by simp [JVal.beq] at h

theorem JVal.eqArr_of_beqArr : ∀ xs ys : List JVal, JVal.beqArr xs ys = true → xs = ys
  | [], [], _ => rfl
  | x :: xs, y :: ys, h => by
      simp only [JVal.beqArr, Bool.and_eq_true] at h
      rw [JVal.eq_of_beq x y h.1, JVal.eqArr_of_beqArr xs ys h.2]
  | [], _ :: _, h => by simp [JVal.beqArr] at h
  | _ :: _, [], h => by simp [JVal.beqArr] at h

theorem JVal.eqObj_of_beqObj :
    ∀ fs gs : List (String × JVal), JVal.beqObj fs gs = true → fs = gs
  | [], [], _ => rfl
  | (k, v) :: fs, (k', v') :: gs, h => by
      simp only [JVal.beqObj, Bool.and_eq_true, beq_iff_eq] at h
      rw [h.1.1, JVal.eq_of_beq v v' h.1.2, JVal.eqObj_of_beqObj fs gs h.2]
  | [], _ :: _, h => by simp [JVal.beqObj] at h
  | _ :: _, [], h => by simp [JVal.beqObj] at h

end

instance : DecidableEq JVal := fun a b =>
  if h : JVal.beq a b = true then isTrue (JVal.eq_of_beq a b h)
  else isFalse (fun hh => h (hh ▸ JVal.beq_refl a))

deriving instance DecidableEq for Except

/-- The fields of a JSON object (empty for any other value). -/
def JVal.objFields : JVal → List (String × JVal)
  | .obj fs => fs
  | _ => []

/-- A Python dict with string keys, in insertion order. -/
abbrev JRecord := List (String × JVal)

/-- Python truthiness of a JSON value (`if not x: ...`). -/
def JVal.falsy : JVal → Bool
  | .str s => s.isEmpty
  | .num n => n == 0
  | .bool b => !b
  | .null => true
  | .arr xs => xs.isEmpty
  | .obj fs => fs.isEmpty

/-- Python `v.get(k, dflt)`: succeeds only when `v` is a dict, raising
`AttributeError` otherwise (as the source does when a nested member has
an unexpected type). -/
def dictGet (v : JVal) (k : String) (dflt : JVal) : Except String JVal :=
  match v with
  | .obj fs => .ok ((fs.lookup k).getD dflt)
  | _ => .error "AttributeError"

/-- The placeholder rank details returned by `_process_mmr_data` when the
payload is missing (`riot_api.py` lines 195–202). -/
def unratedRankDetails : JRecord :=
  [("currenttierpatched", .str "Unrated"),
   ("current_tier", .num 0),
   ("elo", .num 0),
   ("ranking_in_tier", .num 0),
   ("games_needed_for_rating", .num 0)]

/-- Embeds `RiotAPIClient._process_mmr_data` (`src/updater/riot_api.py` 193–214):
reads the nested shape `data.current.tier`, defaulting every missing
member.  The argument is `Optional[Dict]`; `not mmr_data` is true for
`None` and for the empty dict. -/
def process_mmr_data (mmr_data : Option JRecord) : Except String JRecord :=
  match mmr_data with
  | none => .ok unratedRankDetails
  | some d =>
    if d.isEmpty ∨ (d.lookup "data").isNone then .ok unratedRankDetails
    else do
      let data := (d.lookup "data").getD .null
      let current_data ← dictGet data "current" (.obj [])
      let tier_info ← dictGet current_data "tier" (.obj [])
      let name ← dictGet tier_info "name" (.str "Unrated")
      let id ← dictGet tier_info "id" (.num 0)
      let elo ← dictGet current_data "elo" (.num 0)
      let rr ← dictGet current_data "rr" (.num 0)
      let gnfr ← dictGet current_data "games_needed_for_rating" (.num 0)
      .ok [("currenttierpatched", name),
           ("current_tier", id),
           ("elo", elo),
           ("ranking_in_tier", rr),
           ("games_needed_for_rating", gnfr)]

/-- The placeholder peak rank returned by `_get_peak_rank_info` when the
payload is missing (`riot_api.py` lines 218–223). -/
def unknownPeakRank : JRecord :=
  [("tier_name", .str "Unknown"),
   ("season_short", .str "Unknown"),
   ("tier", .num 0)]

/-- Embeds `RiotAPIClient._get_peak_rank_info` (`src/updater/riot_api.py`
216–234): reads `data.peak.tier` / `data.peak.season`, defaulting every
missing member. -/
def get_peak_rank_info (mmr_data : Option JRecord) : Except String JRecord :=
  match mmr_data with
  | none => .ok unknownPeakRank
  | some d =>
    if d.isEmpty ∨ (d.lookup "data").isNone then .ok unknownPeakRank
    else do
      let data := (d.lookup "data").getD .null
      let peak_data ← dictGet data "peak" (.obj [])
      let tier_info ← dictGet peak_data "tier" (.obj [])
      let season_info ← dictGet peak_data "season" (.obj [])
      let name ← dictGet tier_info "name" (.str "Unknown")
      let short ← dictGet season_info "short" (.str "Unknown")
      let id ← dictGet tier_info "id" (.num 0)
      .ok [("tier_name", name),
           ("season_short", short),
           ("tier", id)]

/-- Embeds `RiotAPIClient._parse_rank_details` of the variant client
(`src/updater/src/riot_api.py` 87–102): reads the flat shape
(`data.currenttierpatched`, …).  `mmr_data["data"]` raising `KeyError`
is caught and yields `None` (embedded as `.ok none`); an
`AttributeError` from `data.get` on a non-dict is *not* caught there and
propagates (embedded as `.error`). -/
def parse_rank_details (mmr_data : JRecord) : Except String (Option JRecord) :=
  match mmr_data.lookup "data" with
  | none => .ok none
  | some data => do
    let ctp ← dictGet data "currenttierpatched" (.str "Unknown")
    let ct ← dictGet data "currenttier" (.num 0)
    let rit ← dictGet data "ranking_in_tier" (.num 0)
    let mmrc ← dictGet data "mmr_change_to_last_game" (.num 0)
    let elo ← dictGet data "elo" (.num 0)
    let account ← dictGet data "account" (.obj [])
    let bySeason ← dictGet data "by_season" (.obj [])
    .ok (some [("currenttierpatched", ctp),
               ("currenttier", ct),
               ("ranking_in_tier", rit),
               ("mmr_change_to_last_game", mmrc),
               ("elo", elo),
               ("account", account),
               ("by_season", bySeason)])

/-- An upstream MMR response in the nested shape (`data.current.tier`),
carrying tier name `s`, tier id `i`, elo `e`, rank rating `r` and
games-needed `g`. -/
def nestedPayload (s : String) (i e r g : Int) : JRecord :=
  [("data", .obj
    [("current", .obj
      [("tier", .obj [("name", .str s), ("id", .num i)]),
       ("elo", .num e),
       ("rr", .num r),
       ("games_needed_for_rating", .num g)])])]

/-- An upstream MMR response in the legacy flat shape
(`data.currenttierpatched`, …) carrying the same rank values, with last
rating change `c`. -/
def flatPayload (s : String) (i e r c : Int) : JRecord :=
  [("data", .obj
    [("currenttierpatched", .str s),
     ("currenttier", .num i),
     ("ranking_in_tier", .num r),
     ("mmr_change_to_last_game", .num c),
     ("elo", .num e)])]

/-- Embeds `tier_counts[tier_name] = tier_counts.get(tier_name, 0) + 1`: bump a
counter keyed by tier name, inserting new keys at the end (Python dicts
keep insertion order). -/
def bumpCount (counts : List (String × Int)) (k : String) : List (String × Int) :=
  if (counts.lookup k).isSome then
    counts.map (fun kv => if kv.1 = k then (kv.1, kv.2 + 1) else kv)
  else counts ++ [(k, 1)]

/-- The `for act_win in act_wins` counting loop of
`_get_seasonal_ranks_info`.  The payloads carry tier names as strings;
the embedding treats a non-string `name` as a type error (Python would
accept any hashable value as a dict key — a path no claim exercises). -/
def countActWins : List JVal → List (String × Int) → Except String (List (String × Int))
  | [], acc => .ok acc
  | w :: ws, acc => do
    let n ← dictGet w "name" (.str "Unknown")
    match n with
    | .str s => countActWins ws (bumpCount acc s)
    | _ => .error "TypeError"

/-- One iteration of the `for season in seasonal_data` loop of
`_get_seasonal_ranks_info` (`src/updater/riot_api.py` 249–280). -/
def processSeason (season : JVal) : Except String JRecord := do
  let season_info ← dictGet season "season" (.obj [])
  let end_tier_info ← dictGet season "end_tier" (.obj [])
  let short ← dictGet season_info "short" (.str "Unknown")
  let sid ← dictGet season_info "id" (.str "")
  let wins ← dictGet season "wins" (.num 0)
  let games ← dictGet season "games" (.num 0)
  let etid ← dictGet end_tier_info "id" (.num 0)
  let etname ← dictGet end_tier_info "name" (.str "Unknown")
  let endrr ← dictGet season "end_rr" (.num 0)
  let schema ← dictGet season "ranking_schema" (.str "base")
  let lp ← dictGet season "leaderboard_placement" .null
  let base : JRecord :=
    [("season_short", short), ("season_id", sid), ("wins", wins), ("games", games),
     ("end_tier", .obj [("id", etid), ("name", etname)]),
     ("end_rr", endrr), ("ranking_schema", schema), ("leaderboard_placement", lp)]
  let act_wins ← dictGet season "act_wins" (.arr [])
  if act_wins.falsy then .ok base
  else
    match act_wins with
    | .arr ws => do
      let counts ← countActWins ws []
      .ok (base ++
        [("act_wins_summary", .obj (counts.map (fun kv => (kv.1, JVal.num kv.2)))),
         ("total_act_wins", .num ws.length)])
    | _ => .error "TypeError"

/-- The `season_short`-descending comparison used by
`processed_seasonal.sort(key=..., reverse=True)`.  The payloads carry
season tags as strings, ordered lexicographically; a non-string key is
never placed ahead (Python would raise `TypeError` on a heterogeneous
comparison — a path no claim exercises). -/
def seasonKeyGE (a b : JRecord) : Bool :=
  match a.lookup "season_short", b.lookup "season_short" with
  | some (.str x), some (.str y) => decide (y ≤ x)
  | _, _ => false

/-- Embeds `RiotAPIClient._get_seasonal_ranks_info` (`src/updater/riot_api.py`
236–286). -/
def get_seasonal_ranks_info (mmr_data : Option JRecord) :
    Except String (List JRecord) :=
  match mmr_data with
  | none => .ok []
  | some d =>
    if d.isEmpty ∨ (d.lookup "data").isNone then .ok []
    else do
      let data := (d.lookup "data").getD .null
      let seasonal ← dictGet data "seasonal" (.arr [])
      if seasonal.falsy then .ok []
      else
        match seasonal with
        | .arr seasons => do
          let recs ← seasons.mapM processSeason
          .ok (recs.mergeSort seasonKeyGE)
        | _ => .error "TypeError"

/-- Embeds `RiotAPIClient.get_full_player_data` (`src/updater/riot_api.py`
144–191).  The companion last-played lookup (which has its own
`try/except` and yields `None` on any failure) enters as the
`lastPlayed` parameter; the wall clock enters as `now`.  The surrounding
`try/except Exception` converts any exception raised while building the
record into a `None` result.  `build_player_data` is the `player_data`
dict literal (lines 163–184); `get_full_player_data` wraps it in the
guard and the exception handler. -/
def build_player_data (puuid : String) (m : JRecord)
    (lastPlayed : Option String) (now : String) : Except String JRecord := do
  let account ← dictGet ((m.lookup "data").getD .null) "account" (.obj [])
  let name ← dictGet account "name" (.str "Unknown")
  let tag ← dictGet account "tag" (.str "0000")
  let rank ← process_mmr_data (some m)
  let peak ← get_peak_rank_info (some m)
  let seasonal ← get_seasonal_ranks_info (some m)
  .ok [("puuid", .str puuid),
       ("name", name),
       ("tag", tag),
       ("rank_details", .obj rank),
       ("peak_rank", .obj peak),
       ("seasonal_ranks", .arr (seasonal.map .obj)),
       ("last_played_match",
         match lastPlayed with | none => .null | some s => .str s),
       ("last_updated", .str now),
       ("update_source", .str "updater_service")]

def get_full_player_data (puuid : String) (mmr_data : Option JRecord)
    (lastPlayed : Option String) (now : String) : Option JRecord :=
  match mmr_data with
  | none => none
  | some m =>
    if m.isEmpty ∨ (m.lookup "data").isNone then none
    else
      match build_player_data puuid m lastPlayed now with
      | .ok d => some d
      | .error _ => none

/-! ## Registry accessor (`src/updater/database.py`) -/

/-- Mongo `$set` of a single top-level field: overwrite in place, append
a new key at the end. -/
def setKey (r : JRecord) (k : String) (v : JVal) : JRecord :=
  if (r.lookup k).isSome then r.map (fun kv => if kv.1 = k then (k, v) else kv)
  else r ++ [(k, v)]

/-- Mongo `{"$set": upd}` applied to a document: every field of `upd` is
set in turn, leaving all other fields of the document untouched. -/
def mergeFields (r : JRecord) (upd : JRecord) : JRecord :=
  upd.foldl (fun acc kv => setKey acc kv.1 kv.2) r

/-- Embeds `update_data.pop("region", None)`. -/
def removeKey (upd : JRecord) (k : String) : JRecord :=
  upd.filter (fun kv => kv.1 ≠ k)

/-- The filter `{"puuid": puuid}`. -/
def matchesPuuid (r : JRecord) (p : String) : Bool :=
  r.lookup "puuid" == some (.str p)

/-- Embeds `collection.update_one` with filter `{"puuid": p}` and operation `{"$set": upd}`, without upsert:
merge the first matching document, never insert.  Returns the new store
together with the matched and modified counts. -/
def updateOne (p : String) (upd : JRecord) :
    List JRecord → List JRecord × Nat × Nat
  | [] => ([], 0, 0)
  | r :: rs =>
    if matchesPuuid r p then
      let r' := mergeFields r upd
      (r' :: rs, 1, if r' = r then 0 else 1)
    else
      let (rs', m, md) := updateOne p upd rs
      (r :: rs', m, md)

/-- Embeds `DatabaseManager.update_player_data` (`src/updater/database.py`
69–89): drops the `region` field, issues the `$set` update keyed by
`puuid`, and returns `True` on both the `modified_count > 0` branch and
the no-change branch (lines 80–85), so a missing document still reports
success. -/
def update_player_data (store : List JRecord) (puuid : String)
    (update_data : JRecord) : List JRecord × Bool :=
  let upd := removeKey update_data "region"
  let res := updateOne puuid upd store
  (res.1, true)

/-! ## Upstream request loops -/

/-- One upstream answer to a request attempt. -/
inductive Resp where
  | http (code : Nat) (retryAfter : Option Nat) (body : JRecord)
  | transportErr

/-- The `for attempt in range(max_retries)` loop of
`RiotAPIClient._make_request` (`src/updater/riot_api.py` 54–84), with
`fuel` the remaining iterations.  Status 200 returns the body; 429
sleeps `Retry-After` (or the configured `retry_delay`) and `continue`s;
404 returns `None`; any other status or transport error falls through
to a constant `retry_delay` sleep guarded by
`attempt < max_retries - 1`.  Returns the result, the sleeps performed,
and the number of requests issued. -/
def makeReqGo (retryDelay : Nat) (resp : Nat → Resp) :
    Nat → Nat → List Nat → Nat → Option JRecord × List Nat × Nat
  | 0, _, sleeps, reqs => (none, sleeps, reqs)
  | fuel + 1, attempt, sleeps, reqs =>
    match resp attempt with
    | .http code ra body =>
      if code = 200 then (some body, sleeps, reqs + 1)
      else if code = 429 then
        makeReqGo retryDelay resp fuel (attempt + 1)
          (sleeps ++ [ra.getD retryDelay]) (reqs + 1)
      else if code = 404 then (none, sleeps, reqs + 1)
      else
        makeReqGo retryDelay resp fuel (attempt + 1)
          (if 0 < fuel then sleeps ++ [retryDelay] else sleeps) (reqs + 1)
    | .transportErr =>
        makeReqGo retryDelay resp fuel (attempt + 1)
          (if 0 < fuel then sleeps ++ [retryDelay] else sleeps) (reqs + 1)

/-- Embeds `RiotAPIClient._make_request` (`src/updater/riot_api.py` 46–84). -/
def make_request (maxRetries retryDelay : Nat) (resp : Nat → Resp) :
    Option JRecord × List Nat × Nat :=
  makeReqGo retryDelay resp maxRetries 0 [] 0

/-- The retry loop of the variant client function
`RiotAPIClient.get_player_mmr_data` (`src/updater/src/riot_api.py`
38–85).  Status 200 additionally requires `status == 200` and a `data`
member in the body; 429 sleeps `(attempt + 1) * 10` and `continue`s; 404
returns `None`; any other status, timeout, or unexpected error sleeps
the escalating `(attempt + 1) * 2` when attempts remain and otherwise
returns `None`. -/
def mmrReqGo (resp : Nat → Resp) :
    Nat → Nat → List Nat → Nat → Option JRecord × List Nat × Nat
  | 0, _, sleeps, reqs => (none, sleeps, reqs)
  | fuel + 1, attempt, sleeps, reqs =>
    match resp attempt with
    | .http code _ body =>
      if code = 200 then
        (if body.lookup "status" = some (.num 200) ∧ (body.lookup "data").isSome
         then some body else none, sleeps, reqs + 1)
      else if code = 429 then
        mmrReqGo resp fuel (attempt + 1) (sleeps ++ [(attempt + 1) * 10]) (reqs + 1)
      else if code = 404 then (none, sleeps, reqs + 1)
      else if 0 < fuel then
        mmrReqGo resp fuel (attempt + 1) (sleeps ++ [(attempt + 1) * 2]) (reqs + 1)
      else (none, sleeps, reqs + 1)
    | .transportErr =>
      if 0 < fuel then
        mmrReqGo resp fuel (attempt + 1) (sleeps ++ [(attempt + 1) * 2]) (reqs + 1)
      else (none, sleeps, reqs + 1)

/-- Embeds `RiotAPIClient.get_player_mmr_data` of the variant client
(`src/updater/src/riot_api.py` 26–85). -/
def get_player_mmr_data (maxRetries : Nat) (resp : Nat → Resp) :
    Option JRecord × List Nat × Nat :=
  mmrReqGo resp maxRetries 0 [] 0

/-! ## Orchestrator (`src/updater/updater.py`) -/

/-- The counters of `PlayerUpdater.stats` (timestamps aside). -/
structure UpdStats where
  total_players : Nat
  updated_players : Nat
  failed_updates : Nat
  skipped_players : Nat
deriving DecidableEq, Repr

/-- The counters as zeroed in `PlayerUpdater.__init__`. -/
def initStats : UpdStats := ⟨0, 0, 0, 0⟩

/-- The `success_rate` computed by `_get_update_stats`
(`src/updater/updater.py` 161–164). -/
def successRate (s : UpdStats) : ℚ :=
  if 0 < s.total_players then
    (s.updated_players : ℚ) / (s.total_players : ℚ) * 100
  else 0

/-- What `riot_api.get_full_player_data` does for one player: returns a
record, returns `None` (no MMR data / 404), or raises. -/
inductive FetchResult where
  | data (d : JRecord)
  | noData
  | exn

/-- What `db_manager.update_player_data` does for one player: returns a
boolean or raises. -/
inductive DbResult where
  | ok (b : Bool)
  | exn

/-- Embeds `PlayerUpdater._update_single_player` (`src/updater/updater.py`
98–120): any exception from the fetch or the write is caught by its
`except Exception` and converted to `False`; a falsy fetch result is
`False`; otherwise the database result is returned. -/
def update_single_player (fetch : FetchResult) (db : DbResult) : Bool :=
  match fetch with
  | .exn => false
  | .noData => false
  | .data d =>
    if d.isEmpty then false
    else
      match db with
      | .exn => false
      | .ok b => b

/-- A registry entry together with the behaviour of the upstream fetch
and the storage write for that player during the run. -/
structure PlayerEntry where
  puuid : Option String
  fetch : FetchResult
  db : DbResult

/-- The `for i, player in enumerate(players, 1)` loop of
`PlayerUpdater._update_players_batch` (`src/updater/updater.py` 62–96):
a missing puuid increments `skipped_players` and `continue`s (skipping
the trailing delay); otherwise the single-player update increments
`updated_players` or `failed_updates` (the `except Exception` of the
loop also counts a failure), and the inter-request delay runs only while
`i < total_players`.  The second component counts delays performed. -/
def batchGo (total : Nat) : Nat → List PlayerEntry → UpdStats → Nat → UpdStats × Nat
  | _, [], st, d => (st, d)
  | i, p :: ps, st, d =>
    match p.puuid with
    | none =>
      batchGo total (i + 1) ps
        { st with skipped_players := st.skipped_players + 1 } d
    | some _ =>
      let st' :=
        if update_single_player p.fetch p.db then
          { st with updated_players := st.updated_players + 1 }
        else
          { st with failed_updates := st.failed_updates + 1 }
      batchGo total (i + 1) ps st' (if i < total then d + 1 else d)

/-- Embeds `PlayerUpdater._update_players_batch` (`src/updater/updater.py`
62–96). -/
def update_players_batch (players : List PlayerEntry) (st : UpdStats) :
    UpdStats × Nat :=
  batchGo players.length 1 players st 0

/-- Embeds `PlayerUpdater.update_all_players` (`src/updater/updater.py` 30–60):
a failed database connect raises, is caught by the surrounding
`except Exception`, and the accumulated stats are returned; an empty
registry returns early without touching `total_players`; otherwise
`total_players` is overwritten with the registry size and the batch
runs.  The counters are never reset here — only `__init__` zeroes
them. -/
def update_all_players (connectOk : Bool) (players : List PlayerEntry)
    (st : UpdStats) : UpdStats × Nat :=
  if !connectOk then (st, 0)
  else if players.isEmpty then (st, 0)
  else update_players_batch players { st with total_players := players.length }

/-! ## Derived counting functions used to state the claims -/

/-- Entries whose single-player update succeeds. -/
def isSuccessEntry (p : PlayerEntry) : Bool :=
  p.puuid.isSome && update_single_player p.fetch p.db

/-- Entries with a puuid whose single-player update fails. -/
def isFailEntry (p : PlayerEntry) : Bool :=
  p.puuid.isSome && !update_single_player p.fetch p.db

/-- Entries skipped for a missing puuid. -/
def isSkipEntry (p : PlayerEntry) : Bool :=
  p.puuid.isNone

/-- The number of inter-request delays `batchGo` performs from 1-based
position `i` on. -/
def delayCount (total : Nat) : Nat → List PlayerEntry → Nat
  | _, [] => 0
  | i, p :: ps =>
    (if p.puuid.isSome ∧ i < total then 1 else 0) + delayCount total (i + 1) ps

/-- Whether an `Except` result is a normal return. -/
def exOk {α : Type} : Except String α → Bool
  | .ok _ => true
  | .error _ => false

/-- A member that is either absent or a JSON object. -/
def objOrAbsent : Option JVal → Bool
  | none => true
  | some (.obj _) => true
  | some _ => false

/-- Payloads whose present members are objects wherever the normalizers
expect objects: the `data` member, its `current` and `peak` members, and
their `tier` / `season` members, may be absent but must be objects when
present.  Missing members are what the defaulting logic of
`_process_mmr_data` / `_get_peak_rank_info` absorbs. -/
def wellShapedMmr (m : Option JRecord) : Bool :=
  match m with
  | none => true
  | some d =>
    match d.lookup "data" with
    | none => true
    | some (.obj data) =>
      objOrAbsent (data.lookup "current") &&
      objOrAbsent (data.lookup "peak") &&
      objOrAbsent (((data.lookup "current").getD (.obj [])).objFields.lookup "tier") &&
      objOrAbsent (((data.lookup "peak").getD (.obj [])).objFields.lookup "tier") &&
      objOrAbsent (((data.lookup "peak").getD (.obj [])).objFields.lookup "season")
    | some _ => false

/-! ## Concrete scenarios named by the claims -/

/-- Upstream answers that hit the fall-through retry branch of
`_make_request`: any HTTP status other than 200/429/404, a timeout, or a
transport error. -/
def isRetryableFailure : Resp → Bool
  | .http code _ _ => decide (code ≠ 200 ∧ code ≠ 429 ∧ code ≠ 404)
  | .transportErr => true

/-- The registry `[A, B, C]` where the fetch succeeds for A and C and
finds no data for B (the upstream 404 surfaces as a `None` fetch
result). -/
def threePlayerRegistry : List PlayerEntry :=
  [⟨some "A", .data [("puuid", JVal.str "A")], .ok true⟩,
   ⟨some "B", .noData, .ok true⟩,
   ⟨some "C", .data [("puuid", JVal.str "C")], .ok true⟩]

/-- A two-player registry whose first entry is missing its puuid. -/
def skipFirstRegistry : List PlayerEntry :=
  [⟨none, .noData, .ok true⟩,
   ⟨some "P", .data [("puuid", JVal.str "P")], .ok true⟩]

/-- Five players that all succeed. -/
def fivePlayerRegistry : List PlayerEntry :=
  [⟨some "P1", .data [("puuid", JVal.str "P1")], .ok true⟩,
   ⟨some "P2", .data [("puuid", JVal.str "P2")], .ok true⟩,
   ⟨some "P3", .data [("puuid", JVal.str "P3")], .ok true⟩,
   ⟨some "P4", .data [("puuid", JVal.str "P4")], .ok true⟩,
   ⟨some "P5", .data [("puuid", JVal.str "P5")], .ok true⟩]

/-- Two consecutive scheduler cycles on the same `PlayerUpdater`
instance (`main.py scheduled_update` calls
`player_updater.update_all_players()` on the module-level instance each
cycle): the second run starts from the counters the first run left
behind. -/
def twoRunStats (r1 r2 : List PlayerEntry) : UpdStats :=
  (update_all_players true r2 (update_all_players true r1 initStats).1).1

/-! ## Helper lemmas about the batch loop -/

theorem batchGo_spec (ps : List PlayerEntry) :
    ∀ (total i : Nat) (st : UpdStats) (d : Nat),
    batchGo total i ps st d =
      ({ st with
          updated_players := st.updated_players + ps.countP isSuccessEntry,
          failed_updates := st.failed_updates + ps.countP isFailEntry,
          skipped_players := st.skipped_players + ps.countP isSkipEntry },
       d + delayCount total i ps) := by
  induction ps with
  | nil => intro total i st d; simp [batchGo, delayCount]
  | cons p ps ih =>
    intro total i st d
    obtain ⟨t, u, f, k⟩ := st
    by_cases hi : i < total <;>
    cases hp : p.puuid with
    | none =>
      simp only [batchGo, hp, ih, delayCount, List.countP_cons, isSuccessEntry,
        isFailEntry, isSkipEntry]
      simp [hp, hi, UpdStats.mk.injEq]
      omega
    | some q =>
      by_cases hu : update_single_player p.fetch p.db <;>
      · simp only [batchGo, hp, hu, ih, delayCount, List.countP_cons,
          isSuccessEntry, isFailEntry, isSkipEntry]
        simp [hp, hu, hi, UpdStats.mk.injEq]
        omega

theorem countP_partition (ps : List PlayerEntry) :
    ps.countP isSuccessEntry + ps.countP isFailEntry + ps.countP isSkipEntry
      = ps.length := by
  induction ps with
  | nil => rfl
  | cons p ps ih =>
    cases hp : p.puuid with
    | none =>
      simp [List.countP_cons, isSuccessEntry, isFailEntry, isSkipEntry, hp]
      omega
    | some q =>
      by_cases hu : update_single_player p.fetch p.db <;>
      · simp [List.countP_cons, isSuccessEntry, isFailEntry, isSkipEntry, hp, hu]
        omega

theorem delayCount_all_some (ps : List PlayerEntry) :
    ∀ (i total : Nat), (∀ p ∈ ps, p.puuid.isSome = true) →
    i + ps.length = total + 1 → delayCount total i ps = ps.length - 1 := by
  induction ps with
  | nil => intro i total _ _; rfl
  | cons p ps ih =>
    intro i total hall hlen
    have hp : p.puuid.isSome = true := hall p (List.mem_cons_self p ps)
    have hrest : ∀ q ∈ ps, q.puuid.isSome = true :=
      fun q hq => hall q (List.mem_cons_of_mem p hq)
    simp only [List.length_cons] at hlen
    rcases ps with _ | ⟨q, qs⟩
    · simp only [List.length_nil] at hlen
      have hni : ¬ i < total := by omega
      simp [delayCount, hni]
    · have hi : i < total := by
        have := List.length_cons q qs
        omega
      have step : delayCount total i (p :: q :: qs)
          = (if p.puuid.isSome = true ∧ i < total then 1 else 0)
            + delayCount total (i + 1) (q :: qs) := rfl
      rw [step, ih (i + 1) total hrest (by simp only [List.length_cons] at hlen ⊢; omega)]
      simp only [List.length_cons] at hlen ⊢
      simp [hp, hi]
      omega

theorem update_all_players_true_eq (ps : List PlayerEntry) (st : UpdStats) :
    update_all_players true ps st =
      ({ st with
          total_players := if ps.isEmpty then st.total_players else ps.length,
          updated_players := st.updated_players + ps.countP isSuccessEntry,
          failed_updates := st.failed_updates + ps.countP isFailEntry,
          skipped_players := st.skipped_players + ps.countP isSkipEntry },
       if ps.isEmpty then 0 else delayCount ps.length 1 ps) := by
  rcases ps with _ | ⟨p, ps⟩
  · simp [update_all_players]
  · rw [update_all_players]
    simp [update_players_batch, batchGo_spec]

/-! ## Helper lemmas about the retry loops -/

theorem makeReqGo_retryable (rd : Nat) (resp : Nat → Resp) (fuel attempt : Nat)
    (sleeps : List Nat) (reqs : Nat) (h : isRetryableFailure (resp attempt) = true) :
    makeReqGo rd resp (fuel + 1) attempt sleeps reqs
      = makeReqGo rd resp fuel (attempt + 1)
          (if 0 < fuel then sleeps ++ [rd] else sleeps) (reqs + 1) := by
  rcases hr : resp attempt with ⟨c, ra, b⟩ | _
  · rw [hr] at h
    simp only [isRetryableFailure, decide_eq_true_eq] at h
    simp [makeReqGo, hr, h.1, h.2.1, h.2.2]
  · simp [makeReqGo, hr]

theorem mmrReqGo_retryable (resp : Nat → Resp) (fuel attempt : Nat)
    (sleeps : List Nat) (reqs : Nat) (h : isRetryableFailure (resp attempt) = true) :
    mmrReqGo resp (fuel + 1) attempt sleeps reqs
      = if 0 < fuel then
          mmrReqGo resp fuel (attempt + 1) (sleeps ++ [(attempt + 1) * 2]) (reqs + 1)
        else (none, sleeps, reqs + 1) := by
  rcases hr : resp attempt with ⟨c, ra, b⟩ | _
  · rw [hr] at h
    simp only [isRetryableFailure, decide_eq_true_eq] at h
    simp [mmrReqGo, hr, h.1, h.2.1, h.2.2]
  · simp [mmrReqGo, hr]

/-! ## Helper lemmas about the normalizers -/

theorem objOrAbsent_getD {o : Option JVal} (h : objOrAbsent o = true) :
    o.getD (JVal.obj []) = JVal.obj ((o.getD (JVal.obj [])).objFields) := by
  rcases o with _ | v
  · rfl
  · rcases v with s | n | b | _ | xs | fs
    · simp [objOrAbsent] at h
    · simp [objOrAbsent] at h
    · simp [objOrAbsent] at h
    · simp [objOrAbsent] at h
    · simp [objOrAbsent] at h
    · rfl

theorem exOk_process_mmr_data (m : Option JRecord) (h : wellShapedMmr m = true) :
    exOk (process_mmr_data m) = true := by
  match m with
  | none => rfl
  | some d =>
    rw [process_mmr_data]
    split
    · rfl
    · rename_i hne
      rw [wellShapedMmr] at h
      rcases hd : d.lookup "data" with _ | v
      · simp [hd] at hne
      · rw [hd] at h
        rcases v with s | n | b | _ | xs | data
        · simp at h
        · simp at h
        · simp at h
        · simp at h
        · simp at h
        · simp only [Bool.and_eq_true] at h
          obtain ⟨⟨⟨⟨h1, h2⟩, h3⟩, h4⟩, h5⟩ := h
          simp only [hd, Option.getD_some, dictGet, bind, Except.bind]
          rw [objOrAbsent_getD h1]
          simp only [dictGet]
          rw [objOrAbsent_getD h3]
          simp [dictGet, bind, Except.bind, exOk]

theorem exOk_get_peak_rank_info (m : Option JRecord) (h : wellShapedMmr m = true) :
    exOk (get_peak_rank_info m) = true := by
  match m with
  | none => rfl
  | some d =>
    rw [get_peak_rank_info]
    split
    · rfl
    · rename_i hne
      rw [wellShapedMmr] at h
      rcases hd : d.lookup "data" with _ | v
      · simp [hd] at hne
      · rw [hd] at h
        rcases v with s | n | b | _ | xs | data
        · simp at h
        · simp at h
        · simp at h
        · simp at h
        · simp at h
        · simp only [Bool.and_eq_true] at h
          obtain ⟨⟨⟨⟨h1, h2⟩, h3⟩, h4⟩, h5⟩ := h
          simp only [hd, Option.getD_some, dictGet, bind, Except.bind]
          rw [objOrAbsent_getD h2]
          simp only [dictGet]
          rw [objOrAbsent_getD h4, objOrAbsent_getD h5]
          simp [dictGet, bind, Except.bind, exOk]

/-! ## Helper lemmas about the store -/

theorem lookup_map_overwrite (r : JRecord) (k k' : String) (v : JVal)
    (h : (k == k') = false) :
    (r.map (fun kv => if kv.1 = k' then (k', v) else kv)).lookup k = r.lookup k := by
  induction r with
  | nil => rfl
  | cons kv rs ih =>
    obtain ⟨a, b⟩ := kv
    rw [List.map_cons]
    by_cases ha : a = k'
    · subst ha
      rw [show (if ((a, b) : String × JVal).1 = a then (a, v) else (a, b))
            = (a, v) from by simp]
      simp [List.lookup, h, ih]
    · rw [show (if ((a, b) : String × JVal).1 = k' then (k', v) else (a, b))
            = (a, b) from by simp [ha]]
      simp [List.lookup, ih]

theorem lookup_map_overwrite_self (r : JRecord) (k : String) (v : JVal)
    (h : (r.lookup k).isSome = true) :
    (r.map (fun kv => if kv.1 = k then (k, v) else kv)).lookup k = some v := by
  induction r with
  | nil => simp [List.lookup] at h
  | cons kv rs ih =>
    obtain ⟨a, b⟩ := kv
    rw [List.map_cons]
    by_cases ha : a = k
    · subst ha
      rw [show (if ((a, b) : String × JVal).1 = a then (a, v) else (a, b))
            = (a, v) from by simp]
      simp [List.lookup]
    · have hk : (k == a) = false := by
        simp only [beq_eq_false_iff_ne]
        exact fun hh => ha hh.symm
      simp only [List.lookup, hk] at h
      rw [show (if ((a, b) : String × JVal).1 = k then (k, v) else (a, b))
            = (a, b) from by simp [ha]]
      simp [List.lookup, hk, ih h]

theorem lookup_append_single_ne (r : JRecord) (k k' : String) (v : JVal)
    (h : (k == k') = false) :
    (r ++ [(k', v)]).lookup k = r.lookup k := by
  induction r with
  | nil => simp [List.lookup, h]
  | cons kv rs ih =>
    obtain ⟨a, b⟩ := kv
    simp [List.lookup, ih]

theorem lookup_append_single_self (r : JRecord) (k : String) (v : JVal)
    (h : r.lookup k = none) :
    (r ++ [(k, v)]).lookup k = some v := by
  induction r with
  | nil => simp [List.lookup]
  | cons kv rs ih =>
    obtain ⟨a, b⟩ := kv
    by_cases hk : (k == a) = true
    · simp [List.lookup, hk] at h
    · have hk' : (k == a) = false := by
        cases hkk : (k == a)
        · rfl
        · exact absurd hkk hk
      simp only [List.lookup, hk'] at h
      simp only [List.cons_append, List.lookup, hk']
      exact ih h

theorem setKey_lookup_ne (r : JRecord) (k k' : String) (v : JVal)
    (h : (k == k') = false) :
    (setKey r k' v).lookup k = r.lookup k := by
  rw [setKey]
  by_cases hs : (r.lookup k').isSome
  · simp only [hs, if_pos]
    exact lookup_map_overwrite r k k' v h
  · simp only [hs, if_neg]
    exact lookup_append_single_ne r k k' v h

theorem setKey_lookup_self (r : JRecord) (k : String) (v : JVal) :
    (setKey r k v).lookup k = some v := by
  rw [setKey]
  by_cases hs : (r.lookup k).isSome
  · simp only [hs, if_pos]
    exact lookup_map_overwrite_self r k v hs
  · simp only [hs, if_neg]
    exact lookup_append_single_self r k v (by
      cases hl : r.lookup k
      · rfl
      · rw [hl] at hs; simp at hs)

theorem mergeFields_cons (r : JRecord) (kv : String × JVal) (u : JRecord) :
    mergeFields r (kv :: u) = mergeFields (setKey r kv.1 kv.2) u := rfl

theorem mergeFields_lookup_none (u : JRecord) :
    ∀ (r : JRecord) (k : String), u.lookup k = none →
    (mergeFields r u).lookup k = r.lookup k := by
  induction u with
  | nil => intro r k _; rfl
  | cons kv u ih =>
    intro r k h
    obtain ⟨k', v⟩ := kv
    by_cases hk : (k == k') = true
    · simp [List.lookup, hk] at h
    · have hk' : (k == k') = false := by
        cases hkk : (k == k')
        · rfl
        · exact absurd hkk hk
      simp only [List.lookup, hk'] at h
      rw [mergeFields_cons, ih (setKey r k' v) k h, setKey_lookup_ne r k k' v hk']

theorem updateOne_length (p : String) (upd : JRecord) (store : List JRecord) :
    (updateOne p upd store).1.length = store.length := by
  induction store with
  | nil => rfl
  | cons r rs ih =>
    rw [updateOne]
    by_cases hm : matchesPuuid r p
    · simp [hm]
    · rcases hrec : updateOne p upd rs with ⟨rs', m, md⟩
      rw [hrec] at ih
      simp [hm, hrec, ih]

theorem updateOne_no_match (p : String) (upd : JRecord) (store : List JRecord)
    (h : ∀ r ∈ store, matchesPuuid r p = false) :
    updateOne p upd store = (store, 0, 0) := by
  induction store with
  | nil => rfl
  | cons r rs ih =>
    have hr : matchesPuuid r p = false := h r (List.mem_cons_self r rs)
    rw [updateOne, ih (fun q hq => h q (List.mem_cons_of_mem r hq))]
    simp [hr]

theorem updateOne_forall₂ (p : String) (upd : JRecord)
    (hm : ∀ r : JRecord, matchesPuuid r p = true →
      (mergeFields r upd).lookup "puuid" = some (JVal.str p)) :
    ∀ store : List JRecord,
    List.Forall₂ (fun old new => List.lookup "puuid" new = List.lookup "puuid" old)
      store (updateOne p upd store).1 := by
  intro store
  induction store with
  | nil => exact List.Forall₂.nil
  | cons r rs ih =>
    rw [updateOne]
    by_cases hmp : matchesPuuid r p
    · simp only [hmp, if_pos]
      refine List.Forall₂.cons ?_ ?_
      · rw [hm r hmp]
        rw [matchesPuuid] at hmp
        have := eq_of_beq hmp
        rw [this]
      · rw [List.forall₂_same]
        intro x _
        rfl
    · rcases hrec : updateOne p upd rs with ⟨rs', m, md⟩
      rw [hrec] at ih
      simp only [hmp, if_neg, hrec]
      exact List.Forall₂.cons rfl ih

theorem build_player_data_shape (p : String) (m : JRecord) (lp : Option String)
    (now : String) (d : JRecord) (h : build_player_data p m lp now = .ok d) :
    ∃ name tag rank peak seasonal lpj,
      d = [("puuid", .str p), ("name", name), ("tag", tag),
           ("rank_details", .obj rank), ("peak_rank", .obj peak),
           ("seasonal_ranks", .arr seasonal), ("last_played_match", lpj),
           ("last_updated", .str now), ("update_source", .str "updater_service")] := by
  unfold build_player_data at h
  rcases h1 : dictGet ((m.lookup "data").getD .null) "account" (.obj []) with e | account
  · rw [h1] at h; simp [bind, Except.bind] at h
  · rw [h1] at h
    simp only [bind, Except.bind] at h
    rcases h2 : dictGet account "name" (.str "Unknown") with e | name
    · rw [h2] at h; simp at h
    · rw [h2] at h
      rcases h3 : dictGet account "tag" (.str "0000") with e | tag
      · rw [h3] at h; simp at h
      · rw [h3] at h
        rcases h4 : process_mmr_data (some m) with e | rank
        · rw [h4] at h; simp at h
        · rw [h4] at h
          rcases h5 : get_peak_rank_info (some m) with e | peak
          · rw [h5] at h; simp at h
          · rw [h5] at h
            rcases h6 : get_seasonal_ranks_info (some m) with e | seasonal
            · rw [h6] at h; simp at h
            · rw [h6] at h
              simp only [Except.ok.injEq] at h
              exact ⟨name, tag, rank, peak, seasonal.map .obj, _, h.symm⟩

theorem get_full_player_data_shape (p : String) (mmr : Option JRecord)
    (lp : Option String) (now : String) (d : JRecord)
    (h : get_full_player_data p mmr lp now = some d) :
    ∃ name tag rank peak seasonal lpj,
      d = [("puuid", .str p), ("name", name), ("tag", tag),
           ("rank_details", .obj rank), ("peak_rank", .obj peak),
           ("seasonal_ranks", .arr seasonal), ("last_played_match", lpj),
           ("last_updated", .str now), ("update_source", .str "updater_service")] := by
  rcases mmr with _ | m
  · exact absurd h (by simp [get_full_player_data])
  · unfold get_full_player_data at h
    have h' : (if List.isEmpty m = true ∨ (List.lookup "data" m).isNone = true
          then (none : Option JRecord)
          else match build_player_data p m lp now with
            | Except.ok d => some d
            | Except.error _ => none) = some d := h
    by_cases hcond : (List.isEmpty m = true ∨ (List.lookup "data" m).isNone = true)
    · rw [if_pos hcond] at h'
      exact absurd h' (by simp)
    · rw [if_neg hcond] at h'
      rcases hb : build_player_data p m lp now with e | d'
      · rw [hb] at h'
        exact absurd h' (by simp)
      · rw [hb] at h'
        rw [Option.some.injEq] at h'
        subst h'
        exact build_player_data_shape p m lp now d' hb

/-! ## Claims -/

/-- C1 (counterexample).  The claim says normalization produces identical
canonical rank output for an equivalent nested-shape and flat-shape
pair.  It fails: each cited normalizer understands only its own shape
(the other shape falls back to placeholder defaults), so neither
`_process_mmr_data` nor `_parse_rank_details` maps the two equivalent
payloads to identical output. -/
theorem rank_normalization_not_identical_cex :
    process_mmr_data (some (nestedPayload "Gold 1" 14 1400 50 0)) ≠
      process_mmr_data (some (flatPayload "Gold 1" 14 1400 50 0)) ∧
    parse_rank_details (nestedPayload "Gold 1" 14 1400 50 0) ≠
      parse_rank_details (flatPayload "Gold 1" 14 1400 50 0) := by
  decide

/-- C1 (amended).  For every pair of equivalent rank values, the nested
payload normalized by `_process_mmr_data` and the flat payload
normalized by the variant client `_parse_rank_details` agree on the
shared canonical rank fields — tier display name, tier id, elo and
rank rating — each carrying the source values; the two outputs are not
identical records, and no single cited function tolerates both
shapes. -/
theorem rank_normalization_shapes_agree (s : String) (i e r g c : Int) :
    ∃ nrec frec,
      process_mmr_data (some (nestedPayload s i e r g)) = .ok nrec ∧
      parse_rank_details (flatPayload s i e r c) = .ok (some frec) ∧
      nrec.lookup "currenttierpatched" = frec.lookup "currenttierpatched" ∧
      nrec.lookup "current_tier" = frec.lookup "currenttier" ∧
      nrec.lookup "elo" = frec.lookup "elo" ∧
      nrec.lookup "ranking_in_tier" = frec.lookup "ranking_in_tier" ∧
      nrec.lookup "currenttierpatched" = some (.str s) ∧
      nrec.lookup "current_tier" = some (.num i) ∧
      nrec.lookup "elo" = some (.num e) ∧
      nrec.lookup "ranking_in_tier" = some (.num r) :=
  ⟨[("currenttierpatched", .str s), ("current_tier", .num i), ("elo", .num e),
    ("ranking_in_tier", .num r), ("games_needed_for_rating", .num g)],
   [("currenttierpatched", .str s), ("currenttier", .num i),
    ("ranking_in_tier", .num r), ("mmr_change_to_last_game", .num c),
    ("elo", .num e), ("account", .obj []), ("by_season", .obj [])],
   rfl, rfl, rfl, rfl, rfl, rfl, rfl, rfl, rfl, rfl⟩

/-- C2 (confirmed).  A run over the registry `[A, B, C]`, where the
fetch succeeds for A and C and finds nothing for B (404), processes all
three players without aborting and yields total 3, success 2, failure 1;
the success rate is 200/3 %, which rounds to the reported one-decimal
66.7%.  Two inter-request delays are performed. -/
theorem run_stats_three_players :
    update_all_players true threePlayerRegistry initStats = (⟨3, 2, 1, 0⟩, 2) ∧
    successRate (update_all_players true threePlayerRegistry initStats).1
      = 200 / 3 ∧
    round (10 * successRate
      (update_all_players true threePlayerRegistry initStats).1) = 667 := by
  refine ⟨rfl, ?_, ?_⟩ <;>
  norm_num [successRate, threePlayerRegistry, initStats, update_all_players,
    update_players_batch, batchGo, update_single_player, round_eq]

/-- C3 (confirmed).  For every registry content and every behaviour of
the fetch and the write — including per-player exceptions, modelled by
the `exn` outcomes — the run returns its statistics normally (the
embedding is a total function): every player is accounted for exactly
once, an exception during one player is counted as that player's
failure, and the iteration continues past it.  A failed database
connect is also absorbed (zero players processed). -/
theorem update_cycle_total_and_counts (ok : Bool) (ps : List PlayerEntry)
    (st : UpdStats) :
    (update_all_players ok ps st).1.updated_players
        = st.updated_players + (if ok then ps.countP isSuccessEntry else 0) ∧
    (update_all_players ok ps st).1.failed_updates
        = st.failed_updates + (if ok then ps.countP isFailEntry else 0) ∧
    (update_all_players ok ps st).1.skipped_players
        = st.skipped_players + (if ok then ps.countP isSkipEntry else 0) ∧
    (update_all_players ok ps st).1.updated_players
      + (update_all_players ok ps st).1.failed_updates
      + (update_all_players ok ps st).1.skipped_players
        = st.updated_players + st.failed_updates + st.skipped_players
          + (if ok then ps.length else 0) ∧
    (∀ pu db, isFailEntry ⟨some pu, FetchResult.exn, db⟩ = true) ∧
    (∀ f, update_single_player f DbResult.exn = false) := by
  have hexn : ∀ pu db, isFailEntry ⟨some pu, FetchResult.exn, db⟩ = true := by
    intro pu db; rfl
  have hdb : ∀ f, update_single_player f DbResult.exn = false := by
    intro f
    cases f with
    | data d => by_cases hd : d.isEmpty <;> simp [update_single_player, hd]
    | noData => rfl
    | exn => rfl
  cases ok with
  | false => exact ⟨rfl, rfl, rfl, by simp [update_all_players], hexn, hdb⟩
  | true =>
    rw [update_all_players_true_eq]
    refine ⟨by simp, by simp, by simp, ?_, hexn, hdb⟩
    simp only [if_true]
    have := countP_partition ps
    omega

/-- C4 (counterexample).  The claim says the delay between attempts
escalates linearly (attempt index times the base delay).  For
`_make_request` it does not: with retry ceiling 3, base delay 5 and an
always-500 upstream, the loop sleeps the constant base delay both
times — `[5, 5]`, not `[1 * 5, 2 * 5]`. -/
theorem make_request_constant_delay_cex :
    make_request 3 5 (fun _ => .http 500 none []) = (none, [5, 5], 3) ∧
    ([5, 5] : List Nat) ≠ [1 * 5, 2 * 5] := ⟨rfl, by decide⟩

/-- C4 (amended).  For every upstream that keeps answering with a
non-2xx status other than 404 and 429, or a timeout or transport error,
both clients retry up to the ceiling (3 attempts for ceiling 3) and
return the transient-failure result `None` after exhausting it;
between attempts the variant client `get_player_mmr_data` sleeps the
linearly escalating attempt index times 2 seconds (`[2, 4]`), while
`_make_request` sleeps the constant configured base delay each time. -/
theorem retry_exhaustion_schedule (rd : Nat) (resp : Nat → Resp)
    (h : ∀ a, isRetryableFailure (resp a) = true) :
    make_request 3 rd resp = (none, [rd, rd], 3) ∧
    get_player_mmr_data 3 resp = (none, [2, 4], 3) := by
  constructor
  · rw [make_request,
      makeReqGo_retryable rd resp 2 0 [] 0 (h 0),
      makeReqGo_retryable rd resp 1 1 _ _ (h 1),
      makeReqGo_retryable rd resp 0 2 _ _ (h 2)]
    simp [makeReqGo]
  · rw [get_player_mmr_data,
      mmrReqGo_retryable resp 2 0 [] 0 (h 0),
      if_pos (by omega : (0 : Nat) < 2)]
    rw [mmrReqGo_retryable resp 1 1 _ _ (h 1), if_pos (by omega : (0 : Nat) < 1)]
    rw [mmrReqGo_retryable resp 0 2 _ _ (h 2)]
    simp

/-- C4 (witness).  The amended schedule at the concrete always-500
upstream with base delay 5. -/
theorem retry_exhaustion_schedule_witness :
    isRetryableFailure (Resp.http 500 none []) = true ∧
    make_request 3 5 (fun _ => Resp.http 500 none []) = (none, [5, 5], 3) ∧
    get_player_mmr_data 3 (fun _ => Resp.http 500 none []) = (none, [2, 4], 3) :=
  ⟨rfl, retry_exhaustion_schedule 5 (fun _ => Resp.http 500 none []) (fun _ => rfl)⟩

/-- C5 (counterexample).  The claim says `update_player_data` returns
`notFound` when no stored record carries the id.  It does not: on the
empty store the update matches nothing, changes nothing — and still
returns `True` (success); the code returns `True` on both branches. -/
theorem write_player_missing_id_reports_success_cex :
    (update_player_data [] "A" [("name", JVal.str "x")]).2 = true ∧
    (update_player_data [] "A" [("name", JVal.str "x")]).1 = [] := ⟨rfl, rfl⟩

/-- C5 (amended).  For every store, id and field set,
`update_player_data` performs a partial-field merge keyed by `puuid`:
it always reports success (`True`, even when no record matches), never
creates a record (the store size is preserved and a no-match store is
returned unchanged), merges the update fields (minus `region`) into the
first matching record, and a merge leaves every field not named by the
update unchanged. -/
theorem write_player_merge_semantics (store : List JRecord) (p : String)
    (upd : JRecord) :
    (update_player_data store p upd).2 = true ∧
    (update_player_data store p upd).1.length = store.length ∧
    ((∀ r ∈ store, matchesPuuid r p = false) →
      (update_player_data store p upd).1 = store) ∧
    (∀ r rest, matchesPuuid r p = true →
      (update_player_data (r :: rest) p upd).1
        = mergeFields r (removeKey upd "region") :: rest) ∧
    (∀ (r u : JRecord) (k : String), u.lookup k = none →
      (mergeFields r u).lookup k = r.lookup k) := by
  refine ⟨rfl, updateOne_length p (removeKey upd "region") store, ?_, ?_, ?_⟩
  · intro hnone
    show (updateOne p (removeKey upd "region") store).1 = store
    rw [updateOne_no_match p _ store hnone]
  · intro r rest hm
    show (updateOne p (removeKey upd "region") (r :: rest)).1 = _
    rw [updateOne]
    simp [hm]
  · intro r u k hk
    exact mergeFields_lookup_none u r k hk

/-- C5 (witness).  The merge semantics at concrete stores: a
non-matching store is unchanged, a matching record is merged (with
`region` dropped from the update), and an unnamed field keeps its
value. -/
theorem write_player_merge_semantics_witness :
    (update_player_data [[("puuid", JVal.str "B"), ("elo", JVal.num 1)]] "A"
        [("name", JVal.str "x")]).1
      = [[("puuid", JVal.str "B"), ("elo", JVal.num 1)]] ∧
    (update_player_data [[("puuid", JVal.str "A"), ("elo", JVal.num 1)]] "A"
        [("name", JVal.str "x"), ("region", JVal.str "ap")]).1
      = [[("puuid", JVal.str "A"), ("elo", JVal.num 1), ("name", JVal.str "x")]] ∧
    List.lookup "elo" (mergeFields [("elo", JVal.num 1)] [("name", JVal.str "x")])
      = List.lookup "elo" [("elo", JVal.num 1)] := by
  refine ⟨?_, ?_, ?_⟩
  · exact (write_player_merge_semantics
      [[("puuid", JVal.str "B"), ("elo", JVal.num 1)]] "A"
      [("name", JVal.str "x")]).2.2.1 (by decide)
  · have := (write_player_merge_semantics
      [[("puuid", JVal.str "A"), ("elo", JVal.num 1)]] "A"
      [("name", JVal.str "x"), ("region", JVal.str "ap")]).2.2.2.1
      [("puuid", JVal.str "A"), ("elo", JVal.num 1)] [] (by decide)
    rw [this]
    rfl
  · exact (write_player_merge_semantics [] "A" []).2.2.2.2
      [("elo", JVal.num 1)] [("name", JVal.str "x")] "elo" rfl

/-- C6 (confirmed).  With at least two attempts in the budget, a 429
answered on the first attempt and a 200 on the retry produce the same
result as an immediate 200; the 429 is absorbed by sleeping the
server-supplied Retry-After value; and only a full ceiling of 429s
(three, for ceiling 3) surfaces as the `None` failure. -/
theorem rate_limit_backoff_transparency (m rd ra : Nat) (body : JRecord)
    (h : 2 ≤ m) :
    (make_request m rd
        (fun a => if a = 0 then .http 429 (some ra) [] else .http 200 none body)).1
      = (make_request m rd (fun _ => .http 200 none body)).1 ∧
    (make_request m rd
        (fun a => if a = 0 then .http 429 (some ra) [] else .http 200 none body)).2.1
      = [ra] ∧
    make_request 3 rd (fun _ => .http 429 (some ra) []) = (none, [ra, ra, ra], 3) := by
  obtain ⟨k, rfl⟩ : ∃ k, m = k + 2 := ⟨m - 2, by omega⟩
  refine ⟨?_, ?_, rfl⟩ <;> simp [make_request, makeReqGo]

/-- C6 (witness).  Backoff transparency at retry ceiling 3, base delay
5, Retry-After 7 and a concrete body. -/
theorem rate_limit_backoff_transparency_witness :
    2 ≤ 3 ∧
    ((make_request 3 5 (fun a => if a = 0 then Resp.http 429 (some 7) []
          else Resp.http 200 none [("data", JVal.null)])).1
        = (make_request 3 5 (fun _ => Resp.http 200 none [("data", JVal.null)])).1 ∧
     (make_request 3 5 (fun a => if a = 0 then Resp.http 429 (some 7) []
          else Resp.http 200 none [("data", JVal.null)])).2.1 = [7] ∧
     make_request 3 5 (fun _ => Resp.http 429 (some 7) [])
        = (none, [7, 7, 7], 3)) :=
  ⟨by omega,
   rate_limit_backoff_transparency 3 5 7 [("data", JVal.null)] (by omega)⟩

/-- C7 (counterexample).  The claim says every run over n players
performs exactly n - 1 inter-request delays.  It fails when a player is
missing its puuid: the `continue` for a skipped player jumps past the
trailing delay, so the two-player registry whose first entry lacks a
puuid performs 0 delays, not 1. -/
theorem skipped_player_delay_cex :
    (update_players_batch skipFirstRegistry initStats).2 = 0 ∧
    skipFirstRegistry.length - 1 = 1 := ⟨rfl, rfl⟩

/-- C7 (amended).  For every run over players that all carry a puuid,
the batch performs exactly n - 1 inter-request delays — one after each
player except the last; in particular a single player yields no delay.
A player skipped for a missing puuid also skips its trailing delay. -/
theorem inter_request_delays_with_puuids (ps : List PlayerEntry) (st : UpdStats)
    (h : ∀ p ∈ ps, p.puuid.isSome = true) :
    (update_players_batch ps st).2 = ps.length - 1 := by
  rw [update_players_batch, batchGo_spec,
    delayCount_all_some ps 1 ps.length h (by omega)]
  simp

/-- C7 (witness).  Five players that all succeed yield four delays;
one player yields none. -/
theorem inter_request_delays_with_puuids_witness :
    (update_players_batch fivePlayerRegistry initStats).2 = 4 ∧
    (update_players_batch [⟨some "P", FetchResult.noData, DbResult.ok true⟩]
      initStats).2 = 0 :=
  ⟨inter_request_delays_with_puuids fivePlayerRegistry initStats (by decide),
   inter_request_delays_with_puuids
     [⟨some "P", FetchResult.noData, DbResult.ok true⟩] initStats (by decide)⟩

/-- C8 (counterexample).  The claim says the normalizers return a
canonical record without raising for every JSON dictionary payload.
A payload whose `data` member is not an object makes both
`_process_mmr_data` and `_get_peak_rank_info` raise `AttributeError`
(`data.get` on a non-dict); the exception is caught one level up, in
`get_full_player_data`, and is reported as a fetch failure. -/
theorem normalization_nondict_raises_cex :
    process_mmr_data (some [("data", JVal.num 5)]) = .error "AttributeError" ∧
    get_peak_rank_info (some [("data", JVal.num 5)]) = .error "AttributeError" :=
  ⟨rfl, rfl⟩

/-- C8 (amended).  For every payload whose present members are objects
wherever the normalizers expect objects (members may be missing or
empty), `_process_mmr_data` and `_get_peak_rank_info` return a record
without raising, and absent members default to the placeholder values
0 / "Unrated" / "Unknown"; a present non-object member instead raises
inside the normalizer and surfaces only as a fetch failure at the
client boundary. -/
theorem normalization_defaults_well_shaped (m : Option JRecord)
    (h : wellShapedMmr m = true) :
    exOk (process_mmr_data m) = true ∧
    exOk (get_peak_rank_info m) = true ∧
    process_mmr_data none = .ok unratedRankDetails ∧
    get_peak_rank_info none = .ok unknownPeakRank ∧
    process_mmr_data (some [("data", .obj [])]) = .ok unratedRankDetails ∧
    get_peak_rank_info (some [("data", .obj [])]) = .ok unknownPeakRank :=
  ⟨exOk_process_mmr_data m h, exOk_get_peak_rank_info m h, rfl, rfl, rfl, rfl⟩

/-- C8 (witness).  The amended statement at a concrete well-shaped
payload with an empty `current` object and no `peak`. -/
theorem normalization_defaults_well_shaped_witness :
    wellShapedMmr (some [("data", JVal.obj [("current", JVal.obj [])])]) = true ∧
    (exOk (process_mmr_data (some [("data", JVal.obj [("current", JVal.obj [])])])) = true ∧
     exOk (get_peak_rank_info (some [("data", JVal.obj [("current", JVal.obj [])])])) = true ∧
     process_mmr_data none = .ok unratedRankDetails ∧
     get_peak_rank_info none = .ok unknownPeakRank ∧
     process_mmr_data (some [("data", .obj [])]) = .ok unratedRankDetails ∧
     get_peak_rank_info (some [("data", .obj [])]) = .ok unknownPeakRank) :=
  ⟨rfl, normalization_defaults_well_shaped
    (some [("data", JVal.obj [("current", JVal.obj [])])]) rfl⟩

/-- C9 (confirmed).  For every player whose fetch succeeds, the record
built by `get_full_player_data` carries the requested puuid, and the
persist step — keyed by that same puuid — leaves the `puuid` field of
every stored record exactly what it was before the update: no
successful update ever changes a record's id. -/
theorem persisted_puuid_unchanged (p : String) (mmr : Option JRecord)
    (lp : Option String) (now : String) (store : List JRecord) (d : JRecord)
    (h : get_full_player_data p mmr lp now = some d) :
    List.lookup "puuid" d = some (JVal.str p) ∧
    List.Forall₂ (fun old new => List.lookup "puuid" new = List.lookup "puuid" old)
      store (update_player_data store p d).1 := by
  obtain ⟨name, tag, rank, peak, seasonal, lpj, rfl⟩ :=
    get_full_player_data_shape p mmr lp now d h
  refine ⟨rfl, ?_⟩
  show List.Forall₂ _ store (updateOne p _ store).1
  apply updateOne_forall₂
  intro r hmp
  show (mergeFields r (removeKey
    [("puuid", .str p), ("name", name), ("tag", tag),
     ("rank_details", .obj rank), ("peak_rank", .obj peak),
     ("seasonal_ranks", .arr seasonal), ("last_played_match", lpj),
     ("last_updated", .str now), ("update_source", .str "updater_service")]
    "region")).lookup "puuid" = some (JVal.str p)
  rw [show removeKey
      [("puuid", JVal.str p), ("name", name), ("tag", tag),
       ("rank_details", .obj rank), ("peak_rank", .obj peak),
       ("seasonal_ranks", .arr seasonal), ("last_played_match", lpj),
       ("last_updated", .str now), ("update_source", .str "updater_service")]
      "region"
    = [("puuid", JVal.str p), ("name", name), ("tag", tag),
       ("rank_details", .obj rank), ("peak_rank", .obj peak),
       ("seasonal_ranks", .arr seasonal), ("last_played_match", lpj),
       ("last_updated", .str now), ("update_source", .str "updater_service")]
    from rfl]
  rw [mergeFields_cons]
  rw [mergeFields_lookup_none
    [("name", name), ("tag", tag),
     ("rank_details", .obj rank), ("peak_rank", .obj peak),
     ("seasonal_ranks", .arr seasonal), ("last_played_match", lpj),
     ("last_updated", .str now), ("update_source", .str "updater_service")]
    (setKey r "puuid" (JVal.str p)) "puuid" rfl]
  exact setKey_lookup_self r "puuid" (.str p)

/-- C9 (witness).  A concrete successful fetch for player `A` persisted
into a one-record store: the stored puuid is unchanged. -/
theorem persisted_puuid_unchanged_witness :
    List.lookup "puuid"
      [("puuid", JVal.str "A"), ("name", JVal.str "Unknown"),
       ("tag", JVal.str "0000"),
       ("rank_details", JVal.obj unratedRankDetails),
       ("peak_rank", JVal.obj unknownPeakRank),
       ("seasonal_ranks", JVal.arr []),
       ("last_played_match", JVal.null),
       ("last_updated", JVal.str "t0"),
       ("update_source", JVal.str "updater_service")] = some (JVal.str "A") ∧
    List.Forall₂ (fun old new => List.lookup "puuid" new = List.lookup "puuid" old)
      [[("puuid", JVal.str "A"), ("elo", JVal.num 9)]]
      (update_player_data [[("puuid", JVal.str "A"), ("elo", JVal.num 9)]] "A"
        [("puuid", JVal.str "A"), ("name", JVal.str "Unknown"),
         ("tag", JVal.str "0000"),
         ("rank_details", JVal.obj unratedRankDetails),
         ("peak_rank", JVal.obj unknownPeakRank),
         ("seasonal_ranks", JVal.arr []),
         ("last_played_match", JVal.null),
         ("last_updated", JVal.str "t0"),
         ("update_source", JVal.str "updater_service")]).1 :=
  persisted_puuid_unchanged "A" (some [("data", JVal.obj [])]) none "t0"
    [[("puuid", JVal.str "A"), ("elo", JVal.num 9)]]
    [("puuid", JVal.str "A"), ("name", JVal.str "Unknown"),
     ("tag", JVal.str "0000"),
     ("rank_details", JVal.obj unratedRankDetails),
     ("peak_rank", JVal.obj unknownPeakRank),
     ("seasonal_ranks", JVal.arr []),
     ("last_played_match", JVal.null),
     ("last_updated", JVal.str "t0"),
     ("update_source", JVal.str "updater_service")] rfl

/-- C10 (confirmed).  `update_all_players` never resets the
`updated_players`, `failed_updates` and `skipped_players` counters
(only construction zeroes them): across two consecutive runs on the
same instance — as the scheduler performs each cycle — the counters
accumulate both runs and are monotonically non-decreasing, while
`total_players` is overwritten with the second registry size, so the
second run's success rate is the accumulated success count over the
fresh total. -/
theorem stats_accumulate_across_runs (r1 r2 : List PlayerEntry) (h : r2 ≠ []) :
    (twoRunStats r1 r2).updated_players
        = r1.countP isSuccessEntry + r2.countP isSuccessEntry ∧
    (twoRunStats r1 r2).failed_updates
        = r1.countP isFailEntry + r2.countP isFailEntry ∧
    (twoRunStats r1 r2).skipped_players
        = r1.countP isSkipEntry + r2.countP isSkipEntry ∧
    (update_all_players true r1 initStats).1.updated_players
        ≤ (twoRunStats r1 r2).updated_players ∧
    (update_all_players true r1 initStats).1.failed_updates
        ≤ (twoRunStats r1 r2).failed_updates ∧
    (update_all_players true r1 initStats).1.skipped_players
        ≤ (twoRunStats r1 r2).skipped_players ∧
    (twoRunStats r1 r2).total_players = r2.length ∧
    successRate (twoRunStats r1 r2)
        = ((r1.countP isSuccessEntry + r2.countP isSuccessEntry : ℕ) : ℚ)
            / (r2.length : ℚ) * 100 := by
  have he : r2.isEmpty = false := by
    cases r2 with
    | nil => exact absurd rfl h
    | cons a l => rfl
  have hpos : 0 < r2.length := List.length_pos.mpr h
  rw [twoRunStats, update_all_players_true_eq, update_all_players_true_eq]
  simp only [he, if_false, initStats]
  refine ⟨by simp, by simp, by simp, by simp, by simp, by simp, by simp, ?_⟩
  simp [successRate, hpos]

/-- C10 (witness).  One successful run followed by a run over one other
player with no upstream data: the second run's returned statistics
still count the first run's success, and its success rate reads 100%
although the second run updated nobody. -/
theorem stats_accumulate_across_runs_witness :
    (twoRunStats
        [⟨some "A", FetchResult.data [("puuid", JVal.str "A")], DbResult.ok true⟩]
        [⟨some "B", FetchResult.noData, DbResult.ok true⟩]).updated_players = 1 ∧
    (twoRunStats
        [⟨some "A", FetchResult.data [("puuid", JVal.str "A")], DbResult.ok true⟩]
        [⟨some "B", FetchResult.noData, DbResult.ok true⟩]).failed_updates = 1 ∧
    (twoRunStats
        [⟨some "A", FetchResult.data [("puuid", JVal.str "A")], DbResult.ok true⟩]
        [⟨some "B", FetchResult.noData, DbResult.ok true⟩]).total_players = 1 ∧
    successRate (twoRunStats
        [⟨some "A", FetchResult.data [("puuid", JVal.str "A")], DbResult.ok true⟩]
        [⟨some "B", FetchResult.noData, DbResult.ok true⟩]) = 100 := by
  have h := stats_accumulate_across_runs
    [⟨some "A", FetchResult.data [("puuid", JVal.str "A")], DbResult.ok true⟩]
    [⟨some "B", FetchResult.noData, DbResult.ok true⟩] (List.cons_ne_nil _ _)
  refine ⟨h.1, h.2.1, h.2.2.2.2.2.2.1, ?_⟩
  rw [h.2.2.2.2.2.2.2]
  norm_num [show List.countP isSuccessEntry
      [(⟨some "A", FetchResult.data [("puuid", JVal.str "A")], DbResult.ok true⟩
        : PlayerEntry)] = 1 from rfl,
    show List.countP isSuccessEntry
      [(⟨some "B", FetchResult.noData, DbResult.ok true⟩ : PlayerEntry)] = 0
      from rfl]

end ValorantSL
